import Mathlib

/-!
ASZ-Cam-OS photo synchronization engine: a shallow embedding.

This file embeds the photo-sync engine of ASZ-Cam-OS in Lean 4 and proves
properties of it.  The embedded code lives in

* `src/sync/sync_service.py`   (`SyncService`: records, discovery, worker),
* `src/sync/google_photos.py`  (`GooglePhotosAPI`: upload queue and worker),
* `src/sync/google_photos_sync.py` (`GooglePhotosSync.queue_upload`),
* `src/config/settings.py`     (`SyncConfig` defaults).

Conventions of the embedding:

* Python `datetime` values are modelled as natural-number timestamps.
* SHA-256 is modelled as an arbitrary digest function
  `hashFn : List Nat → String` over a file's bytes; no proved statement
  depends on a property of the digest itself.
* Python exceptions are modelled with `Option`/`Except`, and the
  filesystem as a finite list of files, each readable or not.
* `queue.PriorityQueue` is embedded by translating CPython's
  `heapq.heappush`/`heappop` (append then sift, comparing entries with
  Python tuple comparison); a comparison of two `PhotoUploadTask` values
  raises `TypeError` in Python, which the embedding surfaces as an error
  value.
-/

namespace ASZCam

/-- `SyncStatus` enumeration of `sync_service.py`. -/
inductive SyncStatus
  | idle
  | syncing
  | error
  | paused
  | authenticating
deriving DecidableEq, Repr

/-- The `SyncState` dataclass of `sync_service.py`. -/
structure SyncState where
  status : SyncStatus
  last_sync : Option Nat
  last_error : Option String
  photos_pending : Nat
  photos_synced_today : Nat
  total_photos_synced : Nat
  sync_enabled : Bool
  auto_sync : Bool
deriving DecidableEq, Repr

/-- The dataclass defaults of `SyncState`. -/
def initSyncState : SyncState :=
  { status := .idle, last_sync := none, last_error := none,
    photos_pending := 0, photos_synced_today := 0, total_photos_synced := 0,
    sync_enabled := true, auto_sync := true }

/-- The `PhotoSyncRecord` dataclass of `sync_service.py`. -/
structure PhotoSyncRecord where
  local_path : String
  filename : String
  sync_time : Nat
  cloud_id : Option String
  file_size : Nat
  file_hash : String
deriving DecidableEq, Repr

/-- `self.sync_records : Dict[str, PhotoSyncRecord]`, keyed by local path;
a Python dict is embedded as an association list in insertion order. -/
abbrev SyncRecords := List (String × PhotoSyncRecord)

/-- Dict lookup `self.sync_records[path]` / `path in self.sync_records`. -/
def lookupRecord (rs : SyncRecords) (path : String) : Option PhotoSyncRecord :=
  match rs with
  | [] => none
  | e :: rest => if e.1 == path then some e.2 else lookupRecord rest path

/-- Dict assignment `self.sync_records[path] = record`: replaces the value
in place when the key exists (Python dicts keep insertion order), appends
at the end otherwise. -/
def dictInsert (rs : SyncRecords) (path : String) (r : PhotoSyncRecord) : SyncRecords :=
  match rs with
  | [] => [(path, r)]
  | e :: rest => if e.1 == path then (path, r) :: rest else e :: dictInsert rest path r

/-- `SyncService._is_photo_synced`: a record keyed by the path decides by
hash equality alone; only when the path is absent is the store scanned for
any record with the same hash (moved/renamed files). -/
def isPhotoSynced (rs : SyncRecords) (path fileHash : String) : Bool :=
  match lookupRecord rs path with
  | some r => r.file_hash == fileHash
  | none => rs.any (fun e => e.2.file_hash == fileHash)

/-- Modelled from the spec (section 4.2), for comparison with
`isPhotoSynced`: "true if a record exists for `path` with matching hash,
OR any record anywhere in the store has matching hash". -/
def isSyncedSpec (rs : SyncRecords) (path fileHash : String) : Bool :=
  (match lookupRecord rs path with
   | some r => r.file_hash == fileHash
   | none => false)
  || rs.any (fun e => e.2.file_hash == fileHash)

/-! Filesystem model -/

/-- One file of the photos directory: its contents are `some bytes` when
the file can be opened and read, `none` when opening it raises (the file
is unreadable).  `size` is what `stat().st_size` reports and `mtime` what
`os.path.getmtime` reports. -/
structure FSFile where
  path : String
  contents : Option (List Nat)
  size : Nat
  mtime : Nat
deriving DecidableEq, Repr

/-- The photos directory, as the sequence `Path.rglob` walks it. -/
abbrev FileSystem := List FSFile

/-- `Path(p).exists()`. -/
def fileExists (fs : FileSystem) (p : String) : Bool :=
  fs.any (fun f => f.path == p)

/-- The directory entry for `p`, if any. -/
def findFile (fs : FileSystem) (p : String) : Option FSFile :=
  fs.find? (fun f => f.path == p)

/-- `open(p, 'rb').read()`: `none` when the file is absent or unreadable
(either way Python raises and `_calculate_file_hash` catches). -/
def readBytes (fs : FileSystem) (p : String) : Option (List Nat) :=
  match findFile fs p with
  | some f => f.contents
  | none => none

/-- `os.path.getmtime(p)` (0 for a missing file; discovery only queries
paths it just walked). -/
def mtimeOf (fs : FileSystem) (p : String) : Nat :=
  match findFile fs p with
  | some f => f.mtime
  | none => 0

/-- `SyncService._calculate_file_hash`: the SHA-256 hex digest of the
file's bytes, or the empty string when reading raises.  `hashFn` stands
for the digest function. -/
def calculateFileHash (hashFn : List Nat → String) (fs : FileSystem) (p : String) : String :=
  match readBytes fs p with
  | some bytes => hashFn bytes
  | none => ""

/-! Path helpers (`pathlib.Path.name` / `.suffix`) -/

/-- Characters after the last slash: the accumulator is reset at each
separator. -/
def lastComponentAux (acc : List Char) : List Char → List Char
  | [] => acc
  | c :: cs => if c = '/' then lastComponentAux [] cs else lastComponentAux (acc ++ [c]) cs

/-- `Path(p).name`: the final path component. -/
def pathName (p : String) : String :=
  String.mk (lastComponentAux [] p.toList)

/-- Index of the last dot of the name, if any. -/
def lastDotIdxAux (i : Nat) (best : Option Nat) : List Char → Option Nat
  | [] => best
  | c :: cs => lastDotIdxAux (i + 1) (if c = '.' then some i else best) cs

/-- `Path(p).suffix`: from the last dot of the name to its end, empty when
the last dot is the name's first or last character or the name has none. -/
def pathSuffix (p : String) : String :=
  let cs := (pathName p).toList
  match lastDotIdxAux 0 none cs with
  | some i => if 0 < i ∧ i < cs.length - 1 then String.mk (cs.drop i) else ""
  | none => ""

/-- ASCII lowering of `str.lower()` for extensions. -/
def strLower (s : String) : String :=
  String.mk (s.toList.map Char.toLower)

/-- The extension allow-list of `_discover_new_photos`. -/
def imageExtensions : List String :=
  [".jpg", ".jpeg", ".png", ".tiff", ".tif", ".bmp", ".webp"]

/-- `photo_file.suffix.lower() in image_extensions`. -/
def hasImageExt (p : String) : Bool :=
  imageExtensions.contains (strLower (pathSuffix p))

/-! Discovery -/

/-- Stable insertion of `x` into a list already sorted by `mtime`
descending: `x` goes before the first strictly-older entry, and before
nothing it ties with that was walked earlier. -/
def insertByMtimeDesc (fs : FileSystem) (x : String) : List String → List String
  | [] => [x]
  | y :: ys =>
    if mtimeOf fs y ≤ mtimeOf fs x then x :: y :: ys
    else y :: insertByMtimeDesc fs x ys

/-- `sorted(new_photos, key=os.path.getmtime, reverse=True)`: Python's
sort is stable, so the result is the unique stable descending order. -/
def sortByMtimeDesc (fs : FileSystem) : List String → List String
  | [] => []
  | x :: xs => insertByMtimeDesc fs x (sortByMtimeDesc fs xs)

/-- `SyncService._discover_new_photos`: walk the directory, keep files
with an allowed image extension whose (path, hash) is not already synced,
newest first. -/
def discoverNewPhotos (hashFn : List Nat → String) (fs : FileSystem) (rs : SyncRecords) :
    List String :=
  let cand := fs.filterMap (fun f =>
    if hasImageExt f.path then
      if isPhotoSynced rs f.path (calculateFileHash hashFn fs f.path) then none
      else some f.path
    else none)
  sortByMtimeDesc fs cand

/-! The upload queue (`google_photos.py`)

`GooglePhotosAPI.upload_queue` is a `queue.PriorityQueue` of
`(priority, PhotoUploadTask)` pairs.  CPython's `PriorityQueue` stores a
`heapq` binary heap in a plain list; we embed `heappush`/`heappop`
(append / pop-last, then sift) literally, threading the heap list through
each assignment.  Entries are compared with Python tuple comparison:
equal priorities fall through to comparing the two `PhotoUploadTask`
dataclass values, which define `__eq__` but no ordering, so a tie between
distinct tasks raises `TypeError`; the embedding returns that as
`some "TypeError"` together with the heap's contents at the raise point. -/

/-- The `PhotoUploadTask` dataclass of `google_photos.py` (its `metadata`
dict is always `None` where `upload_photo` builds tasks). -/
structure PhotoUploadTask where
  file_path : String
  filename : String
  timestamp : Nat
  retry_count : Nat
  priority : Nat
  metadata : Option String
deriving DecidableEq, Repr, Inhabited

/-- A heap entry `(priority, task)`. -/
abbrev QEntry := Nat × PhotoUploadTask

/-- Python `<` on `(priority, task)` tuples: decided by the priorities
when they differ; otherwise `False` when the tasks are `==`-equal, and a
`TypeError` when they are not (no `__lt__` on the dataclass). -/
def entryLt (a b : QEntry) : Except String Bool :=
  if a.1 < b.1 then .ok true
  else if b.1 < a.1 then .ok false
  else if a.2 == b.2 then .ok false
  else .error "TypeError"

/-- The loop of `heapq._siftdown(heap, startpos, pos)`: bubble the saved
`newitem` up while it compares below its parent, copying parents down;
`fuel` only bounds the recursion (`pos` strictly decreases, so
`fuel = pos` is enough).  On a raised comparison the heap is returned as
mutated so far. -/
def siftdownLoop (newitem : QEntry) (startpos : Nat) :
    Nat → List QEntry → Nat → Option String × List QEntry
  | fuel + 1, heap, pos =>
    if startpos < pos then
      let parentpos := (pos - 1) / 2
      let parent := heap.getD parentpos default
      match entryLt newitem parent with
      | .error e => (some e, heap)
      | .ok true => siftdownLoop newitem startpos fuel (heap.set pos parent) parentpos
      | .ok false => (none, heap.set pos newitem)
    else (none, heap.set pos newitem)
  | 0, heap, pos => (none, heap.set pos newitem)

/-- `heapq._siftdown(heap, startpos, pos)`. -/
def siftdownPy (heap : List QEntry) (startpos pos : Nat) : Option String × List QEntry :=
  siftdownLoop (heap.getD pos default) startpos pos heap pos

/-- The loop of `heapq._siftup(heap, pos)`: walk down moving the smaller
child up, then place `newitem` and call `_siftdown`.  `fuel = endpos`
bounds the descent. -/
def siftupLoop (endpos startpos : Nat) (newitem : QEntry) :
    Nat → List QEntry → Nat → Option String × List QEntry
  | fuel + 1, heap, pos =>
    let childpos := 2 * pos + 1
    if childpos < endpos then
      let rightpos := childpos + 1
      let chosen : Except String Nat :=
        if rightpos < endpos then
          match entryLt (heap.getD childpos default) (heap.getD rightpos default) with
          | .error e => .error e
          | .ok lt => .ok (if lt then childpos else rightpos)
        else .ok childpos
      match chosen with
      | .error e => (some e, heap)
      | .ok c => siftupLoop endpos startpos newitem fuel (heap.set pos (heap.getD c default)) c
    else siftdownPy (heap.set pos newitem) startpos pos
  | 0, heap, pos => siftdownPy (heap.set pos newitem) startpos pos

/-- `heapq._siftup(heap, pos)`. -/
def siftupPy (heap : List QEntry) (pos : Nat) : Option String × List QEntry :=
  siftupLoop heap.length pos (heap.getD pos default) heap.length heap pos

/-- `heapq.heappush`: `heap.append(item); _siftdown(heap, 0, len(heap)-1)`.
Note the item is appended before any comparison, so on a `TypeError` the
returned heap still contains it. -/
def heappushPy (heap : List QEntry) (item : QEntry) : Option String × List QEntry :=
  let heap1 := heap ++ [item]
  siftdownPy heap1 0 (heap1.length - 1)

/-- Split a list into its initial part and its last element. -/
def popLastSplit {α : Type} : List α → Option (List α × α)
  | [] => none
  | [a] => some ([], a)
  | a :: b :: rest =>
    match popLastSplit (b :: rest) with
    | some (init, last) => some (a :: init, last)
    | none => none

/-- `heapq.heappop`: pop the last element; when the heap stays non-empty,
move it to the root and `_siftup`.  `none` models `queue.Empty` on the
worker's bounded `get`. -/
def heappopPy (heap : List QEntry) : Option (Option String × QEntry × List QEntry) :=
  match popLastSplit heap with
  | none => none
  | some (rest, lastelt) =>
    match rest with
    | [] => some (none, lastelt, [])
    | r0 :: rtail =>
      let (err, heap3) := siftupPy (lastelt :: rtail) 0
      some (err, r0, heap3)

/-! Configuration and the Google Photos upload worker -/

/-- The sync fields of `SyncConfig` in `config/settings.py`, with their
dataclass defaults. -/
structure SyncConfig where
  enabled : Bool
  auto_sync : Bool
  sync_interval : Nat
  max_retry_attempts : Nat
  retry_delay : Nat
  exponential_backoff : Bool
deriving DecidableEq, Repr

/-- The `SyncConfig()` defaults (`max_retry_attempts = 3`,
`retry_delay = 60`). -/
def defaultSyncConfig : SyncConfig :=
  { enabled := false, auto_sync := true, sync_interval := 300,
    max_retry_attempts := 3, retry_delay := 60, exponential_backoff := true }

/-- The `GooglePhotosAPI.stats` counters the upload worker touches. -/
structure UploadStats where
  total_uploads : Nat
  successful_uploads : Nat
  failed_uploads : Nat
deriving DecidableEq, Repr

/-- `GooglePhotosAPI._upload_worker`, run until the queue empties:
dequeue, call `_upload_single_photo` (the transport, abstracted as
`upload`, which sees the task including its current `retry_count`); on
failure with `retry_count < max_retry_attempts`, increment `retry_count`,
sleep `retry_delay`, and re-put at the same priority; otherwise count the
task in the stats.  The result also carries how many transport calls were
made.  A heap comparison error (the source logs it and loops) is
surfaced as `.error`; no run proved about below reaches one.  `fuel`
bounds the iteration count; once the queue is empty every further
iteration blocks on `get`, leaving the state unchanged, so the run
returns. -/
def runUploadWorker (cfg : SyncConfig) (upload : PhotoUploadTask → Bool) :
    Nat → List QEntry → UploadStats → Nat →
    Except String (List QEntry × UploadStats × Nat)
  | 0, q, stats, attempts => .ok (q, stats, attempts)
  | fuel + 1, q, stats, attempts =>
    match heappopPy q with
    | none => .ok (q, stats, attempts)
    | some (some e, _, _) => .error e
    | some (none, (priority, task), q1) =>
      let success := upload task
      if !success && task.retry_count < cfg.max_retry_attempts then
        match heappushPy q1 (priority, { task with retry_count := task.retry_count + 1 }) with
        | (some e, _) => .error e
        | (none, q2) => runUploadWorker cfg upload fuel q2 stats (attempts + 1)
      else
        let stats1 : UploadStats :=
          { total_uploads := stats.total_uploads + 1,
            successful_uploads := stats.successful_uploads + (if success then 1 else 0),
            failed_uploads := stats.failed_uploads + (if success then 0 else 1) }
        runUploadWorker cfg upload fuel q1 stats1 (attempts + 1)

/-! SyncService state and operations -/

/-- The Qt signals `SyncService` emits (log lines are kept apart, in the
machine below). -/
inductive SigEv
  | statusChanged (s : SyncStatus)
  | photoSynced (p : String)
  | errorOccurred (msg : String)
deriving DecidableEq, Repr

/-- Is the event an `error_occurred` signal? -/
def SigEv.isError : SigEv → Bool
  | .errorOccurred _ => true
  | _ => false

/-- The mutable state `SyncService` and the `GooglePhotosAPI` singleton
share during a sync cycle: the service's `SyncState`, record dict,
pending set and stop event, the API's priority queue and stats, and the
signals emitted so far. -/
structure SyncSystem where
  state : SyncState
  sync_records : SyncRecords
  pending_photos : List String
  stop_event : Bool
  gqueue : List QEntry
  gstats : UploadStats
  events : List SigEv
deriving DecidableEq, Repr

/-- `set.add` on `pending_photos`. -/
def setAdd (s : List String) (p : String) : List String :=
  if s.contains p then s else s ++ [p]

/-- `set.discard` on `pending_photos`. -/
def setDiscard (s : List String) (p : String) : List String :=
  s.filter (fun x => !(x == p))

/-- `GooglePhotosAPI.upload_photo(file_path, priority)`: build a task and
`PriorityQueue.put` it, returning `True`; a missing file, or the
`TypeError` the put can raise on a priority tie, is caught and yields
`False` (the heap keeps whatever `heappush` left in it). -/
def uploadPhoto (fs : FileSystem) (now : Nat) (sys : SyncSystem)
    (path : String) (priority : Nat) : Bool × SyncSystem :=
  if fileExists fs path then
    let task : PhotoUploadTask :=
      { file_path := path, filename := pathName path, timestamp := now,
        retry_count := 0, priority := priority, metadata := none }
    match heappushPy sys.gqueue (priority, task) with
    | (none, q) => (true, { sys with gqueue := q })
    | (some _, q) => (false, { sys with gqueue := q })
  else (false, sys)

/-- `SyncService.sync_photo(photo_path, priority)`: `False` for a missing
file; `True` without any mutation when the (path, hash) is already
synced; otherwise add to `pending_photos` and queue the upload, updating
`photos_pending` on success and discarding the pending entry on
failure. -/
def syncPhoto (hashFn : List Nat → String) (fs : FileSystem) (now : Nat)
    (sys : SyncSystem) (path : String) (priority : Nat) : Bool × SyncSystem :=
  if fileExists fs path then
    let h := calculateFileHash hashFn fs path
    if isPhotoSynced sys.sync_records path h then (true, sys)
    else
      let sys1 := { sys with pending_photos := setAdd sys.pending_photos path }
      match uploadPhoto fs now sys1 path priority with
      | (true, sys2) =>
        (true, { sys2 with state := { sys2.state with photos_pending := sys2.pending_photos.length } })
      | (false, sys2) =>
        (false, { sys2 with pending_photos := setDiscard sys2.pending_photos path })
  else (false, sys)

/-- `SyncService._record_synced_photo`: recompute the hash, read the size
(`0` when the file no longer exists), upsert the record keyed by the
path, and discard the pending entry. -/
def recordSyncedPhoto (hashFn : List Nat → String) (fs : FileSystem) (now : Nat)
    (sys : SyncSystem) (path : String) : SyncSystem :=
  let h := calculateFileHash hashFn fs path
  let size := match findFile fs path with | some f => f.size | none => 0
  let r : PhotoSyncRecord :=
    { local_path := path, filename := pathName path, sync_time := now,
      cloud_id := none, file_size := size, file_hash := h }
  { sys with sync_records := dictInsert sys.sync_records path r,
             pending_photos := setDiscard sys.pending_photos path }

/-- `SyncService.pause_sync`: only from `SYNCING`; sets the status to
`PAUSED` and emits it immediately, then sets the stop event. -/
def pauseSyncSys (sys : SyncSystem) : SyncSystem :=
  if sys.state.status = SyncStatus.syncing then
    { sys with state := { sys.state with status := .paused },
               events := sys.events ++ [.statusChanged .paused],
               stop_event := true }
  else sys

/-! The sync worker as a small-step machine

`_sync_worker` runs on its own thread while `pause_sync` may run on the
caller's.  The worker's loop body is split at its two interleaving
points: the stop-event check at the top of the loop, and the completion
of `sync_photo`/`_record_synced_photo` for the current photo (the upload
queueing is the blocking call in between).  A `pauseRequest` event may
fire between any two worker steps, which is exactly the interleaving the
GIL allows around the blocking call. -/

/-- Where the worker thread stands. -/
inductive WPhase
  | atLoopTop (remaining : List String)
  | midPhoto (current : String) (remaining : List String)
  | done
deriving DecidableEq, Repr

/-- The combined configuration: shared state, the worker's position, its
local `synced_count`, and the log lines written so far. -/
structure Machine where
  sys : SyncSystem
  phase : WPhase
  synced_count : Nat
  logs : List String
deriving DecidableEq, Repr

/-- An interleaving event: one worker step, or a `pause_sync` call from
the UI thread. -/
inductive MEvent
  | workerStep
  | pauseRequest
deriving DecidableEq, Repr

/-- The tail of `_sync_worker` (lines 364-377): add `synced_count` to both
counters, set `last_sync`, set and emit `PAUSED` when the stop event is
set and `IDLE` otherwise, then `_save_sync_records()`.  The save wraps
its body in `try/except Exception: logger.error(...)`, so `writeRes`
(whether the disk write succeeds) can only add a log line — the state,
status and emitted signals are the same on either outcome. -/
def finishWorker (now : Nat) (writeRes : Except String Unit) (m : Machine) : Machine :=
  let st := m.sys.state
  let newStatus := if m.sys.stop_event then SyncStatus.paused else SyncStatus.idle
  let st1 :=
    { st with photos_synced_today := st.photos_synced_today + m.synced_count,
              total_photos_synced := st.total_photos_synced + m.synced_count,
              last_sync := some now,
              status := newStatus }
  let sys1 := { m.sys with state := st1, events := m.sys.events ++ [.statusChanged newStatus] }
  let logs1 :=
    match writeRes with
    | .ok _ => m.logs
    | .error e => m.logs ++ ["Failed to save sync records: " ++ e]
  { m with sys := sys1, logs := logs1, phase := .done }

/-- One interleaving step.  A worker step at the loop top observes the
stop event (breaking out of the loop) or begins the next photo; a worker
step mid-photo completes `sync_photo(photo, priority=2)` and, when it
returned `True`, records the photo and emits `photo_synced`. -/
def stepM (hashFn : List Nat → String) (fs : FileSystem) (now : Nat)
    (writeRes : Except String Unit) : MEvent → Machine → Machine
  | .pauseRequest, m => { m with sys := pauseSyncSys m.sys }
  | .workerStep, m =>
    match m.phase with
    | .done => m
    | .atLoopTop [] => finishWorker now writeRes m
    | .atLoopTop (p :: rest) =>
      if m.sys.stop_event then finishWorker now writeRes m
      else { m with phase := .midPhoto p rest }
    | .midPhoto p rest =>
      match syncPhoto hashFn fs now m.sys p 2 with
      | (true, sys1) =>
        let sys2 := recordSyncedPhoto hashFn fs now sys1 p
        let sys3 := { sys2 with events := sys2.events ++ [.photoSynced p] }
        { m with sys := sys3, synced_count := m.synced_count + 1, phase := .atLoopTop rest }
      | (false, sys1) => { m with sys := sys1, phase := .atLoopTop rest }

/-- `_start_sync_process` followed by the head of `_sync_worker`: set and
emit `SYNCING`, clear the stop event, discover the photos; with none to
sync the worker sets `IDLE` and returns at once (no counters, no save). -/
def startSyncMachine (hashFn : List Nat → String) (fs : FileSystem)
    (sys : SyncSystem) : Machine :=
  let sys1 := { sys with state := { sys.state with status := .syncing },
                         events := sys.events ++ [.statusChanged .syncing],
                         stop_event := false }
  let photos := discoverNewPhotos hashFn fs sys1.sync_records
  match photos with
  | [] =>
    { sys := { sys1 with state := { sys1.state with status := .idle },
                         events := sys1.events ++ [.statusChanged .idle] },
      phase := .done, synced_count := 0, logs := [] }
  | _ =>
    { sys := sys1, phase := .atLoopTop photos, synced_count := 0, logs := [] }

/-- Iterate `n` worker steps (no pause request in between). -/
def runWorkerSteps (hashFn : List Nat → String) (fs : FileSystem) (now : Nat)
    (writeRes : Except String Unit) : Nat → Machine → Machine
  | 0, m => m
  | n + 1, m => runWorkerSteps hashFn fs now writeRes n
      (stepM hashFn fs now writeRes .workerStep m)

/-- A fresh `SyncService` (constructor defaults) with an empty record
store and an idle Google Photos queue. -/
def initSyncSystem : SyncSystem :=
  { state := initSyncState, sync_records := [], pending_photos := [],
    stop_event := false, gqueue := [],
    gstats := { total_uploads := 0, successful_uploads := 0, failed_uploads := 0 },
    events := [] }

/-! Persistence (`_save_sync_records` / `_load_sync_records`) -/

/-- A filesystem effect of the persistence code. -/
inductive FsOp
  | mkdirParents (path : String)
  | writeFile (path : String) (data : String)
  | replaceFile (src dst : String)
deriving DecidableEq, Repr

/-- Is the operation a rename/replace? -/
def FsOp.isReplace : FsOp → Bool
  | .replaceFile _ _ => true
  | _ => false

/-- Is the operation a direct write to `target`? -/
def FsOp.isWriteTo (target : String) : FsOp → Bool
  | .writeFile p _ => p == target
  | _ => false

/-- `Path(data_directory) / 'sync_records.json'`. -/
def recordsFilePath (dataDir : String) : String :=
  dataDir ++ "/sync_records.json"

/-- A JSON string literal (the engine's paths and digests need no
escaping). -/
def jstr (s : String) : String := "\"" ++ s ++ "\""

/-- `datetime.isoformat()` on the modelled timestamp. -/
def isoTime (t : Nat) : String := "@" ++ toString t

/-- The JSON object `json.dump` writes for one record. -/
def serializeRecord (r : PhotoSyncRecord) : String :=
  "\x7b" ++ jstr "local_path" ++ ": " ++ jstr r.local_path ++ ", "
  ++ jstr "filename" ++ ": " ++ jstr r.filename ++ ", "
  ++ jstr "sync_time" ++ ": " ++ jstr (isoTime r.sync_time) ++ ", "
  ++ jstr "cloud_id" ++ ": " ++ (match r.cloud_id with
      | some c => jstr c
      | none => "null") ++ ", "
  ++ jstr "file_size" ++ ": " ++ toString r.file_size ++ ", "
  ++ jstr "file_hash" ++ ": " ++ jstr r.file_hash ++ "\x7d"

/-- The whole `sync_records.json` document: the record dict keyed by
path, the persisted state, and the format version. -/
def serializeStore (rs : SyncRecords) (total : Nat) (lastSync : Option Nat) : String :=
  "\x7b" ++ jstr "records" ++ ": \x7b"
  ++ String.intercalate ", " (rs.map (fun e => jstr e.1 ++ ": " ++ serializeRecord e.2))
  ++ "\x7d, " ++ jstr "state" ++ ": \x7b"
  ++ jstr "total_photos_synced" ++ ": " ++ toString total ++ ", "
  ++ jstr "last_sync" ++ ": " ++ (match lastSync with
      | some t => jstr (isoTime t)
      | none => "null")
  ++ "\x7d, " ++ jstr "version" ++ ": " ++ jstr "1.0" ++ "\x7d"

/-- `SyncService._save_sync_records` as the sequence of filesystem
operations its body performs: create the parent directory, then open the
record file for writing and `json.dump` into it — a single in-place
write, with no temporary file and no replace. -/
def saveSyncRecordsOps (dataDir : String) (rs : SyncRecords)
    (total : Nat) (lastSync : Option Nat) : List FsOp :=
  [FsOp.mkdirParents dataDir,
   FsOp.writeFile (recordsFilePath dataDir) (serializeStore rs total lastSync)]

/-- Modelled from the spec (section 4.2 `save()`), for comparison with
`saveSyncRecordsOps`: an atomic save writes the serialized contents to
some temporary file and then replaces the record file with it, never
writing the record file directly. -/
def atomicSaveOps (ops : List FsOp) (target : String) : Bool :=
  (ops.any (fun op =>
    match op with
    | .replaceFile src dst => dst == target && !(src == target)
    | _ => false))
  && (ops.all (fun op =>
    match op with
    | .writeFile p _ => !(p == target)
    | _ => true))

/-- One entry of the `records` object as `json.load` hands it to
`_load_sync_records`: `cloud_id`, `file_size` and `file_hash` are read
with `.get`, so each may be absent. -/
structure RawRecord where
  local_path : String
  filename : String
  sync_time : Nat
  cloud_id : Option String
  file_size : Option Nat
  file_hash : Option String
deriving DecidableEq, Repr

/-- A parsed `sync_records.json` document. -/
structure SavedFile where
  records : List (String × RawRecord)
  state_total : Option Nat
  state_last_sync : Option Nat
deriving DecidableEq, Repr

/-- `record_data.get('file_hash', '')` and friends: build the in-memory
record, defaulting `file_size` to `0` and `file_hash` to `""`. -/
def parseRecord (raw : RawRecord) : PhotoSyncRecord :=
  { local_path := raw.local_path, filename := raw.filename,
    sync_time := raw.sync_time, cloud_id := raw.cloud_id,
    file_size := raw.file_size.getD 0, file_hash := raw.file_hash.getD "" }

/-- `SyncService._load_sync_records`: a missing file (`none`) or a file
`json.load` cannot parse (`some (.error _)`; the exception is caught and
logged) both leave the empty store and the state defaults; otherwise the
records are parsed with their defaults and
`state.get('total_photos_synced', 0)` / `state.get('last_sync')` are
taken.  Result: `(records, total_photos_synced, last_sync)`. -/
def loadSyncRecords (file : Option (Except String SavedFile)) :
    SyncRecords × Nat × Option Nat :=
  match file with
  | none => ([], 0, none)
  | some (.error _) => ([], 0, none)
  | some (.ok data) =>
    (data.records.map (fun e => (e.1, parseRecord e.2)),
     data.state_total.getD 0,
     data.state_last_sync)

/-! `GooglePhotosSync.queue_upload` (`google_photos_sync.py`)

The repository's second sync service keeps a plain list queue and is the
one place a duplicate check exists. -/

/-- One entry of `GooglePhotosSync.upload_queue`. -/
structure UploadItem where
  path : String
  filename : String
  size : Nat
  queued_at : Nat
  attempts : Nat
deriving DecidableEq, Repr

/-- The fields of `GooglePhotosSync` that `queue_upload` touches. -/
structure GSyncState where
  upload_queue : List UploadItem
  failed_uploads : List UploadItem
deriving DecidableEq, Repr

/-- `GooglePhotosSync.queue_upload(photo_path)`: reject a missing file;
reject (`False`) when some queued item already has this path; otherwise
append an item with `attempts = 0` and return `True` (the disk snapshot
`save_upload_queue` and the processing trigger do not change the
queue). -/
def queueUpload (fs : FileSystem) (now : Nat) (st : GSyncState) (path : String) :
    Bool × GSyncState :=
  if fileExists fs path then
    if st.upload_queue.any (fun i => i.path == path) then (false, st)
    else
      let item : UploadItem :=
        { path := path, filename := pathName path,
          size := (match findFile fs path with | some f => f.size | none => 0),
          queued_at := now, attempts := 0 }
      (true, { st with upload_queue := st.upload_queue ++ [item] })
  else (false, st)

/-! Concrete instances used by the witnesses and counterexamples -/

/-- A concrete stand-in digest function: the printed byte list (injective
on byte lists, as a digest is meant to be). -/
def hashDemo : List Nat → String := fun bs => toString bs

/-- A record with the given path and hash (the other fields fixed). -/
def recOf (p h : String) : PhotoSyncRecord :=
  { local_path := p, filename := p, sync_time := 0, cloud_id := none,
    file_size := 0, file_hash := h }

/-- A photos directory holding the single readable file `photos/a.jpg`. -/
def fsC1 : FileSystem :=
  [{ path := "photos/a.jpg", contents := some [7, 7], size := 2, mtime := 100 }]

/-- A full sync cycle over `fsC1` from a fresh service: start the worker,
then three worker steps (begin the photo, complete it, drain the loop);
the record-store write succeeds. -/
def mC1 : Machine :=
  runWorkerSteps hashDemo fsC1 9 (.ok ()) 3 (startSyncMachine hashDemo fsC1 initSyncSystem)

/-- A store holding records for two distinct paths with distinct hashes. -/
def rsC2 : SyncRecords := [("P.jpg", recOf "P.jpg" "h1"), ("Q.jpg", recOf "Q.jpg" "h2")]

/-- A task as `upload_photo` builds it for `a.jpg` at priority 2. -/
def tC7a : PhotoUploadTask :=
  { file_path := "a.jpg", filename := "a.jpg", timestamp := 0,
    retry_count := 0, priority := 2, metadata := none }

/-- The same shape of task for `b.jpg`, enqueued later. -/
def tC7b : PhotoUploadTask :=
  { file_path := "b.jpg", filename := "b.jpg", timestamp := 1,
    retry_count := 0, priority := 2, metadata := none }

/-- A directory with the two readable files `a.jpg` and `b.jpg`. -/
def fsAB : FileSystem :=
  [{ path := "a.jpg", contents := some [1], size := 1, mtime := 5 },
   { path := "b.jpg", contents := some [2], size := 1, mtime := 6 }]

/-- The system after queueing `a.jpg` at priority 1 from a fresh service. -/
def sysC3a : SyncSystem := (uploadPhoto fsAB 0 initSyncSystem "a.jpg" 1).2

/-- A `GooglePhotosSync` whose list queue already holds `a.jpg`. -/
def stC3 : GSyncState :=
  { upload_queue := [{ path := "a.jpg", filename := "a.jpg", size := 1,
                       queued_at := 0, attempts := 0 }],
    failed_uploads := [] }

/-- A fresh task with `retry_count = 0` for the retry-ceiling witness. -/
def tC4 : PhotoUploadTask :=
  { file_path := "photos/a.jpg", filename := "a.jpg", timestamp := 0,
    retry_count := 0, priority := 2, metadata := none }

/-- The `mC1` cycle re-run with the record-store write failing. -/
def mC6 : Machine :=
  runWorkerSteps hashDemo fsC1 9 (.error "disk full") 3
    (startSyncMachine hashDemo fsC1 initSyncSystem)

/-- A directory with two new photos, `a.jpg` newer than `b.jpg`. -/
def fsC8 : FileSystem :=
  [{ path := "a.jpg", contents := some [1], size := 1, mtime := 200 },
   { path := "b.jpg", contents := some [2], size := 1, mtime := 100 }]

/-- Start a cycle over `fsC8`, let the worker begin `a.jpg` (its upload is
in flight), then call `pause_sync` from the UI thread. -/
def mC8paused : Machine :=
  stepM hashDemo fsC8 9 (.ok ()) .pauseRequest
    (stepM hashDemo fsC8 9 (.ok ()) .workerStep (startSyncMachine hashDemo fsC8 initSyncSystem))

/-- A store loaded from disk in which `P.jpg` has hash `habc` and the
record for `Q.jpg` lacks the `file_hash` field, so it defaults to `""`. -/
def rsC9 : SyncRecords :=
  (loadSyncRecords (some (.ok
    { records :=
        [("P.jpg", { local_path := "P.jpg", filename := "P.jpg", sync_time := 0,
                     cloud_id := none, file_size := some 3, file_hash := some "habc" }),
         ("Q.jpg", { local_path := "Q.jpg", filename := "Q.jpg", sync_time := 0,
                     cloud_id := none, file_size := none, file_hash := none })],
      state_total := some 2, state_last_sync := none }))).1

/-- A directory where `P.jpg` exists but cannot be read. -/
def fsC9 : FileSystem := [{ path := "P.jpg", contents := none, size := 3, mtime := 50 }]

/-- A directory where `R.jpg` exists but cannot be read. -/
def fsC9w : FileSystem := [{ path := "R.jpg", contents := none, size := 1, mtime := 1 }]

/-- A store holding one record whose hash is the empty string. -/
def rsC9w : SyncRecords := [("Q.jpg", recOf "Q.jpg" "")]

/-- A directory with the single readable file `P.jpg` of contents `[1]`. -/
def fsC10 : FileSystem := [{ path := "P.jpg", contents := some [1], size := 1, mtime := 4 }]

/-- A service whose store already records `P.jpg` with its current hash. -/
def sysC10 : SyncSystem :=
  { initSyncSystem with sync_records := [("P.jpg", recOf "P.jpg" "[1]")] }

/-! Shared lemmas about the embedded operations -/

/-- Popping a one-element heap returns the element without comparisons. -/
theorem heappopPy_singleton (e : QEntry) : heappopPy [e] = some (none, e, []) := rfl

/-- Pushing onto an empty heap appends without comparisons. -/
theorem heappushPy_nil (e : QEntry) : heappushPy [] e = (none, [e]) := rfl

/-- The upload worker leaves an empty queue as it is. -/
theorem runUploadWorker_nil (cfg : SyncConfig) (upload : PhotoUploadTask → Bool)
    (fuel a : Nat) (s : UploadStats) :
    runUploadWorker cfg upload (fuel + 1) [] s a = .ok ([], s, a) := by
  simp [runUploadWorker, heappopPy, popLastSplit]

/-- One worker pass over a singleton queue with a failed upload and
`retry_count` below the ceiling: increment `retry_count`, re-enqueue at
the same priority, count one more transport attempt. -/
theorem runUploadWorker_fail_retry (cfg : SyncConfig) (upload : PhotoUploadTask → Bool)
    (fuel priority a : Nat) (t : PhotoUploadTask) (s : UploadStats)
    (hf : upload t = false) (hlt : t.retry_count < cfg.max_retry_attempts) :
    runUploadWorker cfg upload (fuel + 1) [(priority, t)] s a =
      runUploadWorker cfg upload fuel
        [(priority, { t with retry_count := t.retry_count + 1 })] s (a + 1) := by
  rw [runUploadWorker]
  rw [heappopPy_singleton]
  simp only [hf, Bool.not_false, Bool.true_and, decide_eq_true_eq, hlt, if_true, heappushPy_nil]

/-- One worker pass over a singleton queue with a failed upload at the
retry ceiling: drop the task and count it as failed. -/
theorem runUploadWorker_fail_drop (cfg : SyncConfig) (upload : PhotoUploadTask → Bool)
    (fuel priority a : Nat) (t : PhotoUploadTask) (s : UploadStats)
    (hf : upload t = false) (hge : ¬ t.retry_count < cfg.max_retry_attempts) :
    runUploadWorker cfg upload (fuel + 1) [(priority, t)] s a =
      runUploadWorker cfg upload fuel []
        { total_uploads := s.total_uploads + 1,
          successful_uploads := s.successful_uploads,
          failed_uploads := s.failed_uploads + 1 } (a + 1) := by
  rw [runUploadWorker]
  rw [heappopPy_singleton]
  simp only [hf, Bool.not_false, Bool.true_and, decide_eq_true_eq, hge, if_false]
  simp

/-- The worker's behaviour on a singleton queue whose uploads always
fail, parametrised by the distance `k` from the task's `retry_count` to
the ceiling: exactly `k + 1` further transport attempts are made and the
task ends dropped and counted as one failure, the queue empty. -/
theorem runUploadWorker_allFail_singleton (cfg : SyncConfig) (upload : PhotoUploadTask → Bool)
    (hfail : ∀ t, upload t = false) :
    ∀ (k fuel priority a : Nat) (t : PhotoUploadTask) (s : UploadStats),
      t.retry_count + k = cfg.max_retry_attempts → k + 2 ≤ fuel →
      runUploadWorker cfg upload fuel [(priority, t)] s a =
        .ok ([], { total_uploads := s.total_uploads + 1,
                   successful_uploads := s.successful_uploads,
                   failed_uploads := s.failed_uploads + 1 }, a + k + 1) := by
  intro k
  induction k with
  | zero =>
    intro fuel priority a t s hrc hfuel
    obtain ⟨f1, rfl⟩ : ∃ f1, fuel = f1 + 1 := ⟨fuel - 1, by omega⟩
    obtain ⟨f2, rfl⟩ : ∃ f2, f1 = f2 + 1 := ⟨f1 - 1, by omega⟩
    rw [runUploadWorker_fail_drop cfg upload (f2 + 1) priority a t s (hfail t) (by omega)]
    rw [runUploadWorker_nil]
  | succ k ih =>
    intro fuel priority a t s hrc hfuel
    obtain ⟨f1, rfl⟩ : ∃ f1, fuel = f1 + 1 := ⟨fuel - 1, by omega⟩
    have hlt : t.retry_count < cfg.max_retry_attempts := by omega
    have hfuel1 : k + 2 ≤ f1 := by omega
    have hrc1 : ({ t with retry_count := t.retry_count + 1 } : PhotoUploadTask).retry_count + k
        = cfg.max_retry_attempts := by
      show t.retry_count + 1 + k = cfg.max_retry_attempts
      omega
    rw [runUploadWorker_fail_retry cfg upload f1 priority a t s (hfail t) hlt]
    rw [ih f1 priority (a + 1) _ s hrc1 hfuel1]
    have harith : a + 1 + k + 1 = a + (k + 1) + 1 := by omega
    rw [harith]

/-- Queueing an upload never touches the service's stop event. -/
theorem uploadPhoto_stop_event (fs : FileSystem) (now : Nat) (sys : SyncSystem)
    (path : String) (priority : Nat) :
    (uploadPhoto fs now sys path priority).2.stop_event = sys.stop_event := by
  unfold uploadPhoto
  by_cases hex : fileExists fs path = true
  · simp only [hex, if_true]
    rcases heappushPy sys.gqueue _ with ⟨err, q⟩
    cases err <;> rfl
  · simp only [Bool.not_eq_true] at hex
    simp [hex]

/-- `sync_photo` never touches the service's stop event. -/
theorem syncPhoto_stop_event (hashFn : List Nat → String) (fs : FileSystem) (now : Nat)
    (sys : SyncSystem) (path : String) (priority : Nat) :
    (syncPhoto hashFn fs now sys path priority).2.stop_event = sys.stop_event := by
  unfold syncPhoto
  by_cases hex : fileExists fs path = true
  · simp only [hex, if_true]
    by_cases hsync : isPhotoSynced sys.sync_records path (calculateFileHash hashFn fs path) = true
    · simp [hsync]
    · simp only [Bool.not_eq_true] at hsync
      simp only [hsync, Bool.false_eq_true, if_false]
      rcases hup : uploadPhoto fs now
          { sys with pending_photos := setAdd sys.pending_photos path } path priority
        with ⟨b, sys2⟩
      have := uploadPhoto_stop_event fs now
        { sys with pending_photos := setAdd sys.pending_photos path } path priority
      rw [hup] at this
      cases b <;> simpa using this
  · simp only [Bool.not_eq_true] at hex
    simp [hex]

/-- After a dict upsert, looking the key up yields the fresh record. -/
theorem lookupRecord_dictInsert_self (rs : SyncRecords) (p : String) (r : PhotoSyncRecord) :
    lookupRecord (dictInsert rs p r) p = some r := by
  induction rs with
  | nil => simp [dictInsert, lookupRecord]
  | cons x xs ih =>
    by_cases hx : (x.1 == p) = true
    · simp [dictInsert, lookupRecord, hx]
    · simp [dictInsert, lookupRecord, hx, ih]

/-- After `_record_synced_photo`, the path is keyed in the store. -/
theorem recordSyncedPhoto_lookup (hashFn : List Nat → String) (fs : FileSystem)
    (now : Nat) (sys : SyncSystem) (path : String) :
    (lookupRecord (recordSyncedPhoto hashFn fs now sys path).sync_records path).isSome
      = true := by
  unfold recordSyncedPhoto
  simp [lookupRecord_dictInsert_self]

/-- Membership in the stable descending insertion. -/
theorem mem_insertByMtimeDesc (fs : FileSystem) (x y : String) (l : List String) :
    y ∈ insertByMtimeDesc fs x l ↔ y = x ∨ y ∈ l := by
  induction l with
  | nil => simp [insertByMtimeDesc]
  | cons z zs ih =>
    unfold insertByMtimeDesc
    by_cases hz : mtimeOf fs z ≤ mtimeOf fs x
    · simp [hz]
    · simp [hz, ih]
      tauto

/-- Sorting by modification time permutes, hence preserves, membership. -/
theorem mem_sortByMtimeDesc (fs : FileSystem) (y : String) (l : List String) :
    y ∈ sortByMtimeDesc fs l ↔ y ∈ l := by
  induction l with
  | nil => simp [sortByMtimeDesc]
  | cons x xs ih =>
    simp [sortByMtimeDesc, mem_insertByMtimeDesc, ih]

/-! The claims -/

/-- C1: the claim says a photo is recorded in the store and the synced
counters incremented only after the transport upload succeeds, so that
with an always-failing transport `photos_synced_today = 0` and the path
stays absent from the store.  The code instead records the photo and
bumps both counters as soon as the task is queued (`sync_photo` returns
`True` at queue time): over a directory holding the one readable file
`photos/a.jpg` with a transport that always fails, the completed cycle
has `photos_synced_today = 1` and the path keyed in the store, while the
transport failure is visible only in the upload worker's own stats
(4 failed attempts, one task counted failed). -/
theorem C1_recorded_and_counted_despite_transport_failure :
    mC1.phase = WPhase.done
    ∧ mC1.sys.state.photos_synced_today = 1
    ∧ mC1.sys.state.total_photos_synced = 1
    ∧ (lookupRecord mC1.sys.sync_records "photos/a.jpg").isSome = true
    ∧ runUploadWorker defaultSyncConfig (fun _ => false) 10 mC1.sys.gqueue
        { total_uploads := 0, successful_uploads := 0, failed_uploads := 0 } 0
      = .ok ([], { total_uploads := 1, successful_uploads := 0, failed_uploads := 1 }, 4) :=
  ⟨rfl, rfl, rfl, rfl, rfl⟩

/-- C2 counterexample: with records for `P.jpg` (hash `h1`) and `Q.jpg`
(hash `h2`), the claim's formula (some record anywhere has hash `h2`)
holds at `is_synced("P.jpg", "h2")`, yet the code returns false: a record
keyed by the queried path decides alone and the hash scan is never
reached. -/
theorem C2_keyed_record_shadows_hash_scan_cex :
    isPhotoSynced rsC2 "P.jpg" "h2" = false
    ∧ (rsC2.any (fun e => e.2.file_hash == "h2")) = true
    ∧ isSyncedSpec rsC2 "P.jpg" "h2" = true :=
  ⟨rfl, rfl, rfl⟩

/-- C2 (amended): `is_synced(path, hash)` is true iff the record keyed by
`path`, when one exists, carries exactly `hash`; only when `path` is not
keyed does it fall back to scanning the whole store for any record with
an equal hash — which is what recognises a synced file renamed to a new
path with identical bytes. -/
theorem C2_is_synced_characterization :
    (∀ (rs : SyncRecords) (path h : String) (r : PhotoSyncRecord),
        lookupRecord rs path = some r →
        (isPhotoSynced rs path h = true ↔ r.file_hash = h))
    ∧ (∀ (rs : SyncRecords) (path h : String),
        lookupRecord rs path = none →
        (isPhotoSynced rs path h = true ↔ ∃ e ∈ rs, e.2.file_hash = h)) := by
  constructor
  · intro rs path h r hl
    simp [isPhotoSynced, hl]
  · intro rs path h hl
    simp [isPhotoSynced, hl, List.any_eq_true]

/-- C2 witness: a store recording `A.jpg` with hash `hA` reports the
renamed path `B.jpg` with the same hash as already synced. -/
theorem C2_is_synced_characterization_witness :
    isPhotoSynced [("A.jpg", recOf "A.jpg" "hA")] "B.jpg" "hA" = true :=
  (C2_is_synced_characterization.2 [("A.jpg", recOf "A.jpg" "hA")] "B.jpg" "hA" rfl).mpr
    ⟨("A.jpg", recOf "A.jpg" "hA"), by simp, rfl⟩

/-- C3 counterexample: `upload_photo` checks nothing about the queue
contents; queueing `a.jpg` at priority 1 and then again at priority 2
returns true both times and leaves two queued tasks for the same local
path. -/
theorem C3_upload_photo_no_dedup_cex :
    (uploadPhoto fsAB 0 initSyncSystem "a.jpg" 1).1 = true
    ∧ (uploadPhoto fsAB 1 sysC3a "a.jpg" 2).1 = true
    ∧ ((uploadPhoto fsAB 1 sysC3a "a.jpg" 2).2.gqueue.filter
        (fun e => e.2.file_path == "a.jpg")).length = 2 :=
  ⟨rfl, rfl, rfl⟩

/-- C3 (amended): the duplicate check lives in `GooglePhotosSync`'s list
queue, not in `GooglePhotosAPI.upload_photo`: `queue_upload` returns
false and leaves the state unchanged whenever some queued item already
has the path, and hence preserves at-most-one-queued-task-per-path. -/
theorem C3_queue_upload_dedup :
    (∀ (fs : FileSystem) (now : Nat) (st : GSyncState) (path : String),
        st.upload_queue.any (fun i => i.path == path) = true →
        queueUpload fs now st path = (false, st))
    ∧ (∀ (fs : FileSystem) (now : Nat) (st : GSyncState) (path : String),
        (st.upload_queue.map UploadItem.path).Nodup →
        ((queueUpload fs now st path).2.upload_queue.map UploadItem.path).Nodup) := by
  constructor
  · intro fs now st path hdup
    by_cases hex : fileExists fs path = true
    · simp [queueUpload, hex, hdup]
    · simp only [Bool.not_eq_true] at hex
      simp [queueUpload, hex]
  · intro fs now st path hnd
    by_cases hex : fileExists fs path = true
    · by_cases hdup : st.upload_queue.any (fun i => i.path == path) = true
      · simpa [queueUpload, hex, hdup] using hnd
      · have hnotmem : ∀ x ∈ st.upload_queue, ¬ x.path = path := by
          intro x hx hxp
          exact hdup (List.any_eq_true.mpr ⟨x, hx, by simp [hxp]⟩)
        simp only [Bool.not_eq_true] at hdup
        simp only [queueUpload, hex, if_true, hdup, Bool.false_eq_true, if_false]
        simpa [List.nodup_append] using ⟨hnd, hnotmem⟩
    · simp only [Bool.not_eq_true] at hex
      simpa [queueUpload, hex] using hnd

/-- C3 witness: with `a.jpg` already queued, `queue_upload` of `a.jpg`
returns false and changes nothing. -/
theorem C3_queue_upload_dedup_witness :
    queueUpload fsAB 3 stC3 "a.jpg" = (false, stC3) :=
  C3_queue_upload_dedup.1 fsAB 3 stC3 "a.jpg" rfl

/-- C4: a task whose transport call always fails is attempted exactly
`max_retry_attempts + 1` times in total — the worker retries while
`retry_count < max_retry_attempts`, incrementing `retry_count` and
re-enqueueing at the same priority — and is then dropped and counted as
one failed upload, the queue left empty. -/
theorem C4_retry_ceiling (cfg : SyncConfig) (upload : PhotoUploadTask → Bool)
    (priority : Nat) (t : PhotoUploadTask) (fuel : Nat)
    (hfail : ∀ u, upload u = false) (hrc : t.retry_count = 0)
    (hfuel : cfg.max_retry_attempts + 2 ≤ fuel) :
    runUploadWorker cfg upload fuel [(priority, t)]
      { total_uploads := 0, successful_uploads := 0, failed_uploads := 0 } 0 =
      .ok ([], { total_uploads := 1, successful_uploads := 0, failed_uploads := 1 },
           cfg.max_retry_attempts + 1) := by
  have := runUploadWorker_allFail_singleton cfg upload hfail cfg.max_retry_attempts fuel
    priority 0 t { total_uploads := 0, successful_uploads := 0, failed_uploads := 0 }
    (by omega) (by omega)
  simpa using this

/-- C4 witness: with the configuration defaults (`max_retry_attempts = 3`)
an always-failing task is attempted 4 times, then dropped and counted
failed. -/
theorem C4_retry_ceiling_witness :
    runUploadWorker defaultSyncConfig (fun _ => false) 6 [(2, tC4)]
      { total_uploads := 0, successful_uploads := 0, failed_uploads := 0 } 0 =
      .ok ([], { total_uploads := 1, successful_uploads := 0, failed_uploads := 1 }, 4) :=
  C4_retry_ceiling defaultSyncConfig (fun _ => false) 2 tC4 6 (fun _ => rfl) rfl (by decide)

/-- C5 counterexample: the claim says every `save()` writes to a
temporary file and then replaces the record file; the operations
`_save_sync_records` actually performs are not of that atomic shape, and
they do write the record file directly. -/
theorem C5_save_is_not_atomic_cex :
    atomicSaveOps (saveSyncRecordsOps "data" rsC2 7 (some 3)) (recordsFilePath "data") = false
    ∧ (saveSyncRecordsOps "data" rsC2 7 (some 3)).any
        (FsOp.isWriteTo (recordsFilePath "data")) = true :=
  ⟨rfl, rfl⟩

/-- C5 (amended): `save()` creates the parent directory and then writes
the serialized store directly, in place, into `sync_records.json` — no
replace operation ever occurs, for any store contents; robustness to a
corrupt or missing record file lives in `load()` instead, which falls
back to the empty store and state defaults. -/
theorem C5_save_writes_record_file_in_place (dataDir : String) (rs : SyncRecords)
    (total : Nat) (lastSync : Option Nat) (e : String) :
    ((saveSyncRecordsOps dataDir rs total lastSync).all (fun op => !op.isReplace) = true)
    ∧ ((saveSyncRecordsOps dataDir rs total lastSync).any
        (FsOp.isWriteTo (recordsFilePath dataDir)) = true)
    ∧ loadSyncRecords (some (.error e)) = ([], 0, none)
    ∧ loadSyncRecords none = ([], 0, none) := by
  refine ⟨rfl, ?_, rfl, rfl⟩
  simp [saveSyncRecordsOps, FsOp.isWriteTo]

/-- C6 counterexample: the claim says a failing record-store write drives
the engine to the Error state with `last_error` set and the failure
surfaced; running the `mC1` cycle with the disk write failing instead
ends Idle, `last_error` unset, no `error_occurred` signal among the
emitted events — only a log line records the failure. -/
theorem C6_save_failure_stays_idle_cex :
    mC6.phase = WPhase.done
    ∧ mC6.sys.state.status = SyncStatus.idle
    ∧ mC6.sys.state.last_error = none
    ∧ mC6.sys.events.all (fun e => !e.isError) = true
    ∧ mC6.logs = ["Failed to save sync records: disk full"] :=
  ⟨rfl, rfl, rfl, rfl, rfl⟩

/-- C6 (amended): `_save_sync_records` catches its own exceptions and only
logs them, so whether the record-store write fails or succeeds is
invisible to every consumer: each machine step yields the same shared
state, the same worker position and the same counters either way. -/
theorem C6_save_failure_invisible_to_consumers (hashFn : List Nat → String)
    (fs : FileSystem) (now : Nat) (msg : String) (ev : MEvent) (m : Machine) :
    (stepM hashFn fs now (.error msg) ev m).sys = (stepM hashFn fs now (.ok ()) ev m).sys
    ∧ (stepM hashFn fs now (.error msg) ev m).phase = (stepM hashFn fs now (.ok ()) ev m).phase
    ∧ (stepM hashFn fs now (.error msg) ev m).synced_count
      = (stepM hashFn fs now (.ok ()) ev m).synced_count := by
  cases ev with
  | pauseRequest => exact ⟨rfl, rfl, rfl⟩
  | workerStep =>
    obtain ⟨sys, phase, sc, logs⟩ := m
    cases phase with
    | done => exact ⟨rfl, rfl, rfl⟩
    | atLoopTop rem =>
      cases rem with
      | nil => exact ⟨rfl, rfl, rfl⟩
      | cons p rest =>
        by_cases hstop : sys.stop_event = true
        · simp [stepM, hstop, finishWorker]
        · simp only [Bool.not_eq_true] at hstop
          simp [stepM, hstop]
    | midPhoto p rest =>
      rcases hsp : syncPhoto hashFn fs now sys p 2 with ⟨b, sys1⟩
      cases b
      · simp [stepM, hsp]
      · simp [stepM, hsp]

/-- C7: the claim says dequeueing always yields a lowest-priority task,
FIFO among equal priorities, without failing.  The heap entries are
`(priority, task)` tuples and the `PhotoUploadTask` dataclass defines no
ordering, so the very first priority tie — the normal case, since batch
sync queues every photo at priority 2 — raises `TypeError` inside
`PriorityQueue.put`: `upload_photo` catches it and returns false for an
existing file, with the new entry left appended unsifted in the heap. -/
theorem C7_priority_tie_raises_type_error :
    (heappushPy [(2, tC7a)] (2, tC7b)).1 = some "TypeError"
    ∧ fileExists fsAB "b.jpg" = true
    ∧ (uploadPhoto fsAB 1 { initSyncSystem with gqueue := [(2, tC7a)] } "b.jpg" 2).1 = false
    ∧ (uploadPhoto fsAB 1 { initSyncSystem with gqueue := [(2, tC7a)] } "b.jpg" 2).2.gqueue.length
      = 2 :=
  ⟨rfl, rfl, rfl, rfl⟩

/-- C8 counterexample: the claim says the status becomes Paused only
after the in-flight task completes.  With the worker mid-photo on
`a.jpg`, a `pause_sync` call sets the status to Paused at once: in the
resulting configuration the status is already Paused while the worker is
still mid-photo and nothing has been recorded yet. -/
theorem C8_paused_status_before_task_completes_cex :
    (stepM hashDemo fsC8 9 (.ok ()) .workerStep
        (startSyncMachine hashDemo fsC8 initSyncSystem)).phase
      = WPhase.midPhoto "a.jpg" ["b.jpg"]
    ∧ mC8paused.sys.state.status = SyncStatus.paused
    ∧ mC8paused.phase = WPhase.midPhoto "a.jpg" ["b.jpg"]
    ∧ mC8paused.sys.stop_event = true
    ∧ (lookupRecord mC8paused.sys.sync_records "a.jpg").isSome = false :=
  ⟨rfl, rfl, rfl, rfl, rfl⟩

/-- C8 (amended): the worker observes the stop signal only at the top of
its loop, so the in-flight task still completes after a pause — with the
stop event set mid-photo, the next worker step finishes the photo
(recording it whenever `sync_photo` succeeded), and only the step after
that exits the loop, re-asserting Paused and leaving the remaining
photos unprocessed; but the engine's status was already set to Paused by
`pause_sync` itself, before the task completed. -/
theorem C8_inflight_task_completes_then_pause (hashFn : List Nat → String)
    (fs : FileSystem) (now : Nat) (w : Except String Unit) (m : Machine)
    (p : String) (rest : List String)
    (hphase : m.phase = WPhase.midPhoto p rest)
    (hstop : m.sys.stop_event = true) :
    (stepM hashFn fs now w .workerStep m).phase = WPhase.atLoopTop rest
    ∧ ((syncPhoto hashFn fs now m.sys p 2).1 = true →
        (lookupRecord (stepM hashFn fs now w .workerStep m).sys.sync_records p).isSome = true)
    ∧ (stepM hashFn fs now w .workerStep (stepM hashFn fs now w .workerStep m)).phase
      = WPhase.done
    ∧ (stepM hashFn fs now w .workerStep (stepM hashFn fs now w .workerStep m)).sys.state.status
      = SyncStatus.paused
    ∧ (stepM hashFn fs now w .workerStep (stepM hashFn fs now w .workerStep m)).sys.sync_records
      = (stepM hashFn fs now w .workerStep m).sys.sync_records := by
  obtain ⟨sys, phase, sc, logs⟩ := m
  simp only at hphase
  subst hphase
  rcases hsp : syncPhoto hashFn fs now sys p 2 with ⟨b, sys1⟩
  have hstop1 : sys1.stop_event = true := by
    have := syncPhoto_stop_event hashFn fs now sys p 2
    rw [hsp] at this
    exact this.trans hstop
  cases b with
  | true =>
    have hstop2 : (recordSyncedPhoto hashFn fs now sys1 p).stop_event = true := hstop1
    refine ⟨by simp [stepM, hsp], fun _ => ?_, ?_, ?_, ?_⟩
    · simp [stepM, hsp, recordSyncedPhoto_lookup]
    · cases rest <;> simp [stepM, hsp, hstop2, finishWorker]
    · cases rest <;> simp [stepM, hsp, hstop2, finishWorker]
    · cases rest <;> simp [stepM, hsp, hstop2, finishWorker]
  | false =>
    refine ⟨by simp [stepM, hsp], fun hb => by simp at hb, ?_, ?_, ?_⟩
    · cases rest <;> simp [stepM, hsp, hstop1, finishWorker]
    · cases rest <;> simp [stepM, hsp, hstop1, finishWorker]
    · cases rest <;> simp [stepM, hsp, hstop1, finishWorker]

/-- C8 witness: in the paused configuration `mC8paused` (worker mid-photo
on `a.jpg`, stop event set), the next worker step returns to the loop
top and has recorded `a.jpg`, and the step after that finishes with
status Paused, `b.jpg` left unprocessed. -/
theorem C8_inflight_task_completes_then_pause_witness :
    (stepM hashDemo fsC8 9 (.ok ()) .workerStep mC8paused).phase
      = WPhase.atLoopTop ["b.jpg"]
    ∧ ((syncPhoto hashDemo fsC8 9 mC8paused.sys "a.jpg" 2).1 = true →
        (lookupRecord (stepM hashDemo fsC8 9 (.ok ()) .workerStep mC8paused).sys.sync_records
          "a.jpg").isSome = true)
    ∧ (stepM hashDemo fsC8 9 (.ok ()) .workerStep
        (stepM hashDemo fsC8 9 (.ok ()) .workerStep mC8paused)).phase = WPhase.done
    ∧ (stepM hashDemo fsC8 9 (.ok ()) .workerStep
        (stepM hashDemo fsC8 9 (.ok ()) .workerStep mC8paused)).sys.state.status
      = SyncStatus.paused
    ∧ (stepM hashDemo fsC8 9 (.ok ()) .workerStep
        (stepM hashDemo fsC8 9 (.ok ()) .workerStep mC8paused)).sys.sync_records
      = (stepM hashDemo fsC8 9 (.ok ()) .workerStep mC8paused).sys.sync_records :=
  C8_inflight_task_completes_then_pause hashDemo fsC8 9 (.ok ()) mC8paused "a.jpg" ["b.jpg"]
    rfl rfl

/-- C9 counterexample: in the loaded store `rsC9` the record for `Q.jpg`
defaulted to the empty hash, and `P.jpg` exists but cannot be read, so
its hash computes to `""`; yet `P.jpg` is keyed with the non-empty hash
`habc`, so it is reported unsynced and Discovery still yields it — the
claim's "every unreadable file" fails for files keyed with a non-empty
hash. -/
theorem C9_unreadable_keyed_nonempty_hash_cex :
    (rsC9.any (fun e => e.2.file_hash == "")) = true
    ∧ calculateFileHash hashDemo fsC9 "P.jpg" = ""
    ∧ isPhotoSynced rsC9 "P.jpg" "" = false
    ∧ discoverNewPhotos hashDemo fsC9 rsC9 = ["P.jpg"] :=
  ⟨rfl, rfl, rfl, rfl⟩

/-- C9 (amended): hashing an unreadable file returns the empty string
instead of raising; and any unreadable file that is either not keyed in
a store containing some empty-hash record, or keyed by a record whose
hash is itself empty, is reported as already synced and silently
excluded from Discovery's candidates. -/
theorem C9_unreadable_treated_as_synced (hashFn : List Nat → String) (fs : FileSystem)
    (rs : SyncRecords) (p : String)
    (hur : readBytes fs p = none)
    (hkey : (lookupRecord rs p = none ∧ rs.any (fun e => e.2.file_hash == "") = true)
            ∨ (∃ r, lookupRecord rs p = some r ∧ r.file_hash = "")) :
    calculateFileHash hashFn fs p = ""
    ∧ isPhotoSynced rs p (calculateFileHash hashFn fs p) = true
    ∧ p ∉ discoverNewPhotos hashFn fs rs := by
  have hh : calculateFileHash hashFn fs p = "" := by
    simp [calculateFileHash, hur]
  have hsync : isPhotoSynced rs p "" = true := by
    rcases hkey with ⟨hnone, hany⟩ | ⟨r, hsome, hr⟩
    · simp [isPhotoSynced, hnone, hany]
    · simp [isPhotoSynced, hsome, hr]
  refine ⟨hh, by rw [hh]; exact hsync, ?_⟩
  intro hmem
  unfold discoverNewPhotos at hmem
  rw [mem_sortByMtimeDesc] at hmem
  simp only [List.mem_filterMap] at hmem
  obtain ⟨f, hf, heq⟩ := hmem
  by_cases hext : hasImageExt f.path = true
  · rw [if_pos hext] at heq
    by_cases hs : isPhotoSynced rs f.path (calculateFileHash hashFn fs f.path) = true
    · rw [if_pos hs] at heq
      exact Option.noConfusion heq
    · rw [if_neg hs] at heq
      have hfp : f.path = p := Option.some.injEq _ _ ▸ heq
      rw [hfp, hh] at hs
      exact hs hsync
  · rw [if_neg hext] at heq
    exact Option.noConfusion heq

/-- C9 witness: the unreadable `R.jpg` is not keyed in a store holding an
empty-hash record, so it hashes to `""`, is reported synced, and is
excluded from Discovery. -/
theorem C9_unreadable_treated_as_synced_witness :
    calculateFileHash hashDemo fsC9w "R.jpg" = ""
    ∧ isPhotoSynced rsC9w "R.jpg" (calculateFileHash hashDemo fsC9w "R.jpg") = true
    ∧ "R.jpg" ∉ discoverNewPhotos hashDemo fsC9w rsC9w :=
  C9_unreadable_treated_as_synced hashDemo fsC9w rsC9w "R.jpg" rfl (Or.inl ⟨rfl, rfl⟩)

/-- C10: `sync_photo` on an existing file whose (path, hash) the record
store already reports synced returns true and leaves the whole system —
upload queue, pending set, record store, counters — exactly as it was. -/
theorem C10_sync_photo_already_synced_noop (hashFn : List Nat → String) (fs : FileSystem)
    (now : Nat) (sys : SyncSystem) (path : String) (priority : Nat)
    (hex : fileExists fs path = true)
    (hsync : isPhotoSynced sys.sync_records path (calculateFileHash hashFn fs path) = true) :
    syncPhoto hashFn fs now sys path priority = (true, sys) := by
  simp [syncPhoto, hex, hsync]

/-- C10 witness: syncing `P.jpg`, already recorded with its current hash,
returns true and leaves the system untouched. -/
theorem C10_sync_photo_already_synced_noop_witness :
    syncPhoto hashDemo fsC10 5 sysC10 "P.jpg" 1 = (true, sysC10) :=
  C10_sync_photo_already_synced_noop hashDemo fsC10 5 sysC10 "P.jpg" 1 rfl rfl

end ASZCam
